import Mathlib

/-!
Shallow embedding of the svelte_todolist2 application.

Backend (Express + MySQL, `backend/index.js`): four handlers over one table
`tarefas`.  The table is modelled as a list of rows kept in insertion order,
together with the AUTO_INCREMENT counter that produces `insertId` and a
monotone clock that supplies `CURRENT_TIMESTAMP` for `created_at`.  MySQL
stores `completed` as a TINYINT, so a stored row carries it as a `Nat`
(0 or 1); the POST/PUT handlers build response objects whose `completed`
is a genuine boolean.  The `:id` path parameter is modelled already parsed
to a `Nat`.  Request-body fields destructured from `req.body` are modelled
as follows: `description` as `Option String` (`none` = the property is
absent, i.e. JavaScript `undefined`), and `completed` (PUT only) as an
arbitrary JSON value `JsValue` because the handler applies JavaScript
truthiness to it (`completed ? 1 : 0`).

Frontend (`frontend/src/routes/+page.svelte`): the component state is a
record; every async action is modelled as a pure transition on that record,
parametrised by the outcome of its single `fetch` call (`FetchResult`):
`.ok data` is a 2xx response with parsed body, `.fail` is a non-2xx
response or a network/parse error (the `catch` branch).  The template's
`disabled={...}` expressions are translated verbatim as boolean functions
of the state.
-/

namespace Todo

/-- A row of the `tarefas` table.  `completed` is the stored TINYINT value
(0 = false, nonzero = true); `created_at` is the insertion timestamp. -/
structure Row where
  id : Nat
  description : String
  completed : Nat
  created_at : Nat
  deriving Repr, DecidableEq

/-- The relational store: the rows of `tarefas` in insertion order, the
AUTO_INCREMENT counter (`nextId` is the id the next INSERT will assign and
report as `insertId`), and the clock sampled for `created_at`; the clock
advances at each insert. -/
structure Store where
  rows : List Row
  nextId : Nat
  now : Nat
  deriving Repr, DecidableEq

/-- The task object the POST and PUT handlers place in the JSON response:
`{id, description, completed}` with `completed` a boolean. -/
structure TaskJson where
  id : Nat
  description : String
  completed : Bool
  deriving Repr, DecidableEq

/-- Body of an API response: a row list (GET), a task object (POST/PUT),
an error object, or no content (DELETE). -/
inductive RespBody where
  | rows (l : List Row)
  | task (t : TaskJson)
  | err (msg : String)
  | empty
  deriving Repr, DecidableEq

/-- An HTTP response: status code and JSON body. -/
structure ApiResponse where
  status : Nat
  body : RespBody
  deriving Repr, DecidableEq

/-- A JSON value as JavaScript sees it after `express.json()` parsing,
plus `undef` for a property that is absent from the body. -/
inductive JsValue where
  | undef
  | null
  | bool (b : Bool)
  | num (n : Int)
  | str (s : String)
  deriving Repr, DecidableEq

/-- JavaScript truthiness: `undefined`, `null`, `false`, `0` and `""` are
falsy, everything else is truthy. -/
def jsTruthy : JsValue → Bool
  | .undef => false
  | .null => false
  | .bool b => b
  | .num n => n != 0
  | .str s => s != ""

/-- The body of a PUT request: `{description?, completed?}`.
`description = none` and `completed = .undef` mean the field is absent. -/
structure PutBody where
  description : Option String
  completed : JsValue
  deriving Repr, DecidableEq

/-- The `ORDER BY created_at DESC` comparison: `a` may come before `b`
when `a.created_at ≥ b.created_at`. -/
def createdDesc (a b : Row) : Bool :=
  b.created_at ≤ a.created_at

/-- GET /api/tasks: `SELECT * FROM tarefas ORDER BY created_at DESC`.
`mergeSort` with the descending comparison models the SQL ordering. -/
def selectAllOrdered (s : Store) : List Row :=
  s.rows.mergeSort createdDesc

/-- GET /api/tasks handler: responds 200 with the ordered rows. -/
def getTasks (s : Store) : ApiResponse × Store :=
  (⟨200, .rows (selectAllOrdered s)⟩, s)

/-- POST /api/tasks handler.  `if (!description)` rejects an absent or
empty description with 400; otherwise the INSERT appends a row with the
generated id and default `completed = 0`, and the handler responds 201
with `{id: result.insertId, description, completed: false}`. -/
def createTask (s : Store) (description : Option String) : ApiResponse × Store :=
  match description with
  | none => (⟨400, .err "A descrição é obrigatória"⟩, s)
  | some d =>
    if d = "" then (⟨400, .err "A descrição é obrigatória"⟩, s)
    else
      (⟨201, .task ⟨s.nextId, d, false⟩⟩,
        ⟨s.rows ++ [⟨s.nextId, d, 0, s.now⟩], s.nextId + 1, s.now + 1⟩)

/-- The ternary
`completed !== undefined ? (completed ? 1 : 0) : currentTask.completed`:
an absent `completed` keeps the stored value, a supplied one is collapsed
by JavaScript truthiness to 1 or 0. -/
def mergeCompleted (currentTask : Row) : JsValue → Nat
  | .undef => currentTask.completed
  | v => if jsTruthy v then 1 else 0

/-- PUT /api/tasks/:id handler.  First rejects a body that supplies
neither field (400); then `SELECT * FROM tarefas WHERE id = ?`: no row is
404; otherwise merges the supplied fields onto the first row found
(`completed` through JavaScript truthiness, stored as 1/0), runs
`UPDATE tarefas SET description = ?, completed = ? WHERE id = ?`, and
responds with the merged task, `completed` normalized via `!!`. -/
def putTask (s : Store) (id : Nat) (b : PutBody) : ApiResponse × Store :=
  if b.description = none ∧ b.completed = JsValue.undef then
    (⟨400, .err "Pelo menos um campo deve ser fornecido para atualização."⟩, s)
  else
    match s.rows.filter (fun r => r.id == id) with
    | [] => (⟨404, .err "Tarefa não encontrada"⟩, s)
    | currentTask :: _ =>
      let newDescription := b.description.getD currentTask.description
      let newCompleted : Nat := mergeCompleted currentTask b.completed
      (⟨200, .task ⟨id, newDescription, newCompleted != 0⟩⟩,
        ⟨s.rows.map (fun r =>
            if r.id == id then
              { r with description := newDescription, completed := newCompleted }
            else r),
          s.nextId, s.now⟩)

/-- DELETE /api/tasks/:id handler: `DELETE FROM tarefas WHERE id = ?`;
`affectedRows = 0` is 404, otherwise 204 with no content. -/
def deleteTask (s : Store) (id : Nat) : ApiResponse × Store :=
  let remaining := s.rows.filter (fun r => r.id != id)
  let affectedRows := s.rows.length - remaining.length
  if affectedRows = 0 then
    (⟨404, .err "Tarefa não encontrada para exclusão"⟩, s)
  else
    (⟨204, .empty⟩, ⟨remaining, s.nextId, s.now⟩)

/-- A store-mutating API request (GET leaves the store unchanged). -/
inductive Op where
  | create (description : Option String)
  | put (id : Nat) (b : PutBody)
  | delete (id : Nat)
  deriving Repr, DecidableEq

/-- The store after one request. -/
def applyOp (s : Store) : Op → Store
  | .create d => (createTask s d).2
  | .put id b => (putTask s id b).2
  | .delete id => (deleteTask s id).2

/-- The store after a sequence of requests. -/
def applyOps (s : Store) (ops : List Op) : Store :=
  ops.foldl applyOp s

namespace UI

/-- The frontend `Task` interface: `{id, description, completed}` with
`completed` a boolean (timestamps omitted; the component never reads them). -/
structure UITask where
  id : Nat
  description : String
  completed : Bool
  deriving Repr, DecidableEq

/-- Component state: `tasks`, `newTaskDescription`, `editingTaskId`,
`editingTaskDescription`, `isLoading`, `error`. -/
structure UIState where
  tasks : List UITask
  newTaskDescription : String
  editingTaskId : Option Nat
  editingTaskDescription : String
  isLoading : Bool
  error : Option String
  deriving Repr, DecidableEq

/-- Outcome of one `fetch` call as the component observes it: `.ok data`
is a 2xx response with a parsed body, `.fail` is a non-2xx response or a
network/parse error, both landing in the `catch` branch. -/
inductive FetchResult (α : Type) where
  | ok (data : α)
  | fail
  deriving Repr, DecidableEq

/-- JavaScript `String.prototype.trim()`: strips whitespace from both
ends, here as an executable function over the character list. -/
def jsTrim (s : String) : String :=
  ⟨((s.data.dropWhile Char.isWhitespace).reverse.dropWhile Char.isWhitespace).reverse⟩

/-- Action `fetchTasks`: on success replaces the task list with the response; on
failure stores an error message.  `finally` clears `isLoading`. -/
def fetchTasks (s : UIState) (r : FetchResult (List UITask)) : UIState :=
  match r with
  | .ok data => { s with tasks := data, isLoading := false, error := none }
  | .fail =>
    { s with isLoading := false, error := some "Não foi possível carregar as tarefas." }

/-- Action `addTask`: returns immediately when the trimmed draft is empty (no
request is sent); on success prepends the returned task and clears the
draft; on failure stores an error message and leaves `tasks` alone. -/
def addTask (s : UIState) (r : FetchResult UITask) : UIState :=
  if jsTrim s.newTaskDescription = "" then s
  else
    match r with
    | .ok addedTask =>
      { s with tasks := addedTask :: s.tasks, newTaskDescription := "",
               isLoading := false, error := none }
    | .fail =>
      { s with isLoading := false, error := some "Não foi possível adicionar a tarefa." }

/-- Action `toggleTaskCompleted`: PUTs `{completed: !task.completed}`; on success
replaces the matching list entry with the returned task. -/
def toggleTaskCompleted (s : UIState) (_task : UITask) (r : FetchResult UITask) : UIState :=
  match r with
  | .ok updatedTask =>
    { s with tasks := s.tasks.map (fun t => if t.id == updatedTask.id then updatedTask else t),
             isLoading := false, error := none }
  | .fail =>
    { s with isLoading := false, error := some "Não foi possível atualizar a tarefa." }

/-- Action `startEditTask`: records the edit cursor and seeds the edit draft. -/
def startEditTask (s : UIState) (task : UITask) : UIState :=
  { s with editingTaskId := some task.id, editingTaskDescription := task.description }

/-- Action `saveEditedTask`: returns immediately when the trimmed edit draft is
empty; on success replaces the matching entry and closes the edit session. -/
def saveEditedTask (s : UIState) (r : FetchResult UITask) : UIState :=
  if jsTrim s.editingTaskDescription = "" then s
  else
    match r with
    | .ok updatedTask =>
      { s with tasks := s.tasks.map (fun t => if t.id == updatedTask.id then updatedTask else t),
               editingTaskId := none, isLoading := false, error := none }
    | .fail =>
      { s with isLoading := false, error := some "Não foi possível salvar a tarefa editada." }

/-- Action `cancelEdit`: clears the edit cursor and the edit draft. -/
def cancelEdit (s : UIState) : UIState :=
  { s with editingTaskId := none, editingTaskDescription := "" }

/-- Action `deleteTask`: on success filters the deleted id out of the list. -/
def deleteTaskUI (s : UIState) (taskId : Nat) (r : FetchResult Unit) : UIState :=
  match r with
  | .ok _ =>
    { s with tasks := s.tasks.filter (fun t => t.id != taskId),
             isLoading := false, error := none }
  | .fail =>
    { s with isLoading := false, error := some "Não foi possível deletar a tarefa." }

/-- Template: `disabled={isLoading || !newTaskDescription.trim()}` on the
add button. -/
def addButtonDisabled (s : UIState) : Bool :=
  s.isLoading || jsTrim s.newTaskDescription == ""

/-- Template: `disabled={isLoading || !editingTaskDescription.trim()}` on
the save button of the edit row. -/
def saveEditButtonDisabled (s : UIState) : Bool :=
  s.isLoading || jsTrim s.editingTaskDescription == ""

/-- Template: `disabled={isLoading}` on the cancel button of the edit row. -/
def cancelEditButtonDisabled (s : UIState) : Bool :=
  s.isLoading

/-- Template: `disabled={isLoading}` on the per-task edit button. -/
def editButtonDisabled (s : UIState) : Bool :=
  s.isLoading

/-- Template: `disabled={isLoading}` on the per-task delete button. -/
def deleteButtonDisabled (s : UIState) : Bool :=
  s.isLoading

/-- Template: the completion checkbox
`<input type="checkbox" checked={task.completed} on:change={...}>`
carries no `disabled` attribute at all, so it is never disabled. -/
def completedCheckboxDisabled (_s : UIState) : Bool :=
  false

end UI

/-! ## Theorems -/

/-- C1: a POST whose `description` is missing or empty is answered 400 and
creates no task (the store is unchanged); any other POST is answered 201
with a task whose `description` is the supplied one, whose `completed` is
`false`, and whose `id` is the store-generated insert id, and the store
gains exactly that row. -/
theorem c1_create_validation (s : Store) (d : String) (hd : d ≠ "") :
    (createTask s none).1.status = 400 ∧ (createTask s none).2 = s ∧
    (createTask s (some "")).1.status = 400 ∧ (createTask s (some "")).2 = s ∧
    (createTask s (some d)).1.status = 201 ∧
    (createTask s (some d)).1.body = .task ⟨s.nextId, d, false⟩ ∧
    (createTask s (some d)).2.rows = s.rows ++ [⟨s.nextId, d, 0, s.now⟩] := by
  simp [createTask, hd]

/-- Witness for C1 on the empty store and the description "buy milk". -/
theorem c1_create_validation_witness :
    (createTask ⟨[], 1, 0⟩ none).1.status = 400 ∧
    (createTask ⟨[], 1, 0⟩ none).2 = ⟨[], 1, 0⟩ ∧
    (createTask ⟨[], 1, 0⟩ (some "")).1.status = 400 ∧
    (createTask ⟨[], 1, 0⟩ (some "")).2 = ⟨[], 1, 0⟩ ∧
    (createTask ⟨[], 1, 0⟩ (some "buy milk")).1.status = 201 ∧
    (createTask ⟨[], 1, 0⟩ (some "buy milk")).1.body = .task ⟨1, "buy milk", false⟩ ∧
    (createTask ⟨[], 1, 0⟩ (some "buy milk")).2.rows = [] ++ [⟨1, "buy milk", 0, 0⟩] := by
  exact c1_create_validation ⟨[], 1, 0⟩ "buy milk" (by decide)

/-- C5: GET /api/tasks answers 200 with a listing that is a permutation of
every stored row, sorted by `created_at` descending. -/
theorem c5_get_ordering (s : Store) :
    (getTasks s).1.status = 200 ∧
    (getTasks s).1.body = .rows (selectAllOrdered s) ∧
    List.Perm (selectAllOrdered s) s.rows ∧
    (selectAllOrdered s).Pairwise (fun a b => b.created_at ≤ a.created_at) := by
  refine ⟨rfl, rfl, List.mergeSort_perm _ _, ?_⟩
  have h := @List.sorted_mergeSort Row createdDesc
    (by intro a b c hab hbc; simp [createdDesc] at *; omega)
    (by intro a b; simp [createdDesc]; omega) s.rows
  exact List.Pairwise.imp (fun {a b} hab => by simpa [createdDesc] using hab) h

/-- C6: for a non-empty description `d`, POST answers 201 with the task
`{id := insert id, description := d, completed := false}`, and the row with
that id, description `d` and stored `completed = 0` (i.e. false) appears in
the listing a subsequent GET returns. -/
theorem c6_round_trip (s : Store) (d : String) (hd : d ≠ "") :
    (createTask s (some d)).1 = ⟨201, .task ⟨s.nextId, d, false⟩⟩ ∧
    (⟨s.nextId, d, 0, s.now⟩ : Row) ∈ selectAllOrdered (createTask s (some d)).2 := by
  constructor
  · simp [createTask, hd]
  · have hmem : (⟨s.nextId, d, 0, s.now⟩ : Row) ∈ (createTask s (some d)).2.rows := by
      simp [createTask, hd]
    simpa [selectAllOrdered, List.mem_mergeSort] using hmem

/-- Witness for C6 on the empty store and the description "buy milk". -/
theorem c6_round_trip_witness :
    (createTask ⟨[], 1, 0⟩ (some "buy milk")).1 = ⟨201, .task ⟨1, "buy milk", false⟩⟩ ∧
    (⟨1, "buy milk", 0, 0⟩ : Row) ∈ selectAllOrdered (createTask ⟨[], 1, 0⟩ (some "buy milk")).2 := by
  exact c6_round_trip ⟨[], 1, 0⟩ "buy milk" (by decide)

/-- Reduction of `putTask` when the body supplies at least one field and
the id lookup finds a row. -/
lemma putTask_found (s : Store) (id : Nat) (b : PutBody) (current : Row) (rest : List Row)
    (hcur : s.rows.filter (fun r => r.id == id) = current :: rest)
    (hb : ¬(b.description = none ∧ b.completed = JsValue.undef)) :
    putTask s id b =
      (⟨200, .task ⟨id, b.description.getD current.description,
          mergeCompleted current b.completed != 0⟩⟩,
        ⟨s.rows.map (fun r =>
            if r.id == id then
              { r with description := b.description.getD current.description,
                       completed := mergeCompleted current b.completed }
            else r),
          s.nextId, s.now⟩) := by
  unfold putTask
  rw [if_neg hb, hcur]

/-- A supplied `completed` is collapsed to 1 or 0 by truthiness. -/
lemma mergeCompleted_of_ne_undef (current : Row) (v : JsValue) (hv : v ≠ JsValue.undef) :
    mergeCompleted current v = if jsTruthy v then 1 else 0 := by
  cases v <;> simp_all [mergeCompleted]

/-- C2: on an existing id, a PUT supplying only `completed` is answered
200 with the merged task carrying the previously stored description and a
boolean `completed`, and every stored row with that id keeps its previous
description; a PUT supplying only `description` is answered 200 with the
merged task carrying the previously stored `completed` normalized to a
boolean, and every stored row with that id keeps its previous `completed`. -/
theorem c2_single_field_update_frame (s : Store) (id : Nat) (v : JsValue) (d : String)
    (current : Row) (rest : List Row)
    (hcur : s.rows.filter (fun r => r.id == id) = current :: rest)
    (hv : v ≠ JsValue.undef) :
    (putTask s id ⟨none, v⟩).1.status = 200 ∧
    (putTask s id ⟨none, v⟩).1.body = .task ⟨id, current.description, jsTruthy v⟩ ∧
    (∀ r ∈ (putTask s id ⟨none, v⟩).2.rows, r.id = id → r.description = current.description) ∧
    (putTask s id ⟨some d, .undef⟩).1.status = 200 ∧
    (putTask s id ⟨some d, .undef⟩).1.body = .task ⟨id, d, current.completed != 0⟩ ∧
    (∀ r ∈ (putTask s id ⟨some d, .undef⟩).2.rows, r.id = id → r.completed = current.completed) := by
  have key1 := putTask_found s id ⟨none, v⟩ current rest hcur (by simp [hv])
  have key2 := putTask_found s id ⟨some d, .undef⟩ current rest hcur (by simp)
  rw [key1, key2]
  refine ⟨rfl, ?_, ?_, rfl, ?_, ?_⟩
  · simp [mergeCompleted_of_ne_undef current v hv]
    cases h : jsTruthy v <;> simp [h]
  · intro r hr hrid
    rcases List.mem_map.1 hr with ⟨r0, _, rfl⟩
    by_cases h0 : r0.id == id
    · simp [h0]
    · simp [h0] at hrid
      exact absurd hrid (by simpa using h0)
  · simp [mergeCompleted]
  · intro r hr hrid
    rcases List.mem_map.1 hr with ⟨r0, _, rfl⟩
    by_cases h0 : r0.id == id
    · simp [h0, mergeCompleted]
    · simp [h0] at hrid
      exact absurd hrid (by simpa using h0)

/-- Witness for C2 on a one-row store, toggling with `true` and editing
with "b". -/
theorem c2_single_field_update_frame_witness :
    (putTask ⟨[⟨1, "a", 0, 0⟩], 2, 1⟩ 1 ⟨none, .bool true⟩).1.status = 200 ∧
    (putTask ⟨[⟨1, "a", 0, 0⟩], 2, 1⟩ 1 ⟨none, .bool true⟩).1.body =
      .task ⟨1, "a", jsTruthy (.bool true)⟩ ∧
    (∀ r ∈ (putTask ⟨[⟨1, "a", 0, 0⟩], 2, 1⟩ 1 ⟨none, .bool true⟩).2.rows,
      r.id = 1 → r.description = "a") ∧
    (putTask ⟨[⟨1, "a", 0, 0⟩], 2, 1⟩ 1 ⟨some "b", .undef⟩).1.status = 200 ∧
    (putTask ⟨[⟨1, "a", 0, 0⟩], 2, 1⟩ 1 ⟨some "b", .undef⟩).1.body =
      .task ⟨1, "b", (0 : Nat) != 0⟩ ∧
    (∀ r ∈ (putTask ⟨[⟨1, "a", 0, 0⟩], 2, 1⟩ 1 ⟨some "b", .undef⟩).2.rows,
      r.id = 1 → r.completed = 0) := by
  exact c2_single_field_update_frame ⟨[⟨1, "a", 0, 0⟩], 2, 1⟩ 1 (.bool true) "b"
    ⟨1, "a", 0, 0⟩ [] (by decide) (by decide)

/-- C10: a `completed` supplied to PUT is interpreted by JavaScript
truthiness: the response's `completed` is the truthiness of the supplied
value (so the string "false" and the number 2 yield `true`; 0, "", `null`
and `false` yield `false`), and every stored row with that id gets 1 or 0
accordingly. -/
theorem c10_completed_truthiness (s : Store) (id : Nat) (b : PutBody)
    (current : Row) (rest : List Row)
    (hcur : s.rows.filter (fun r => r.id == id) = current :: rest)
    (hv : b.completed ≠ JsValue.undef) :
    jsTruthy (.str "false") = true ∧ jsTruthy (.num 2) = true ∧
    jsTruthy (.num 0) = false ∧ jsTruthy (.str "") = false ∧
    jsTruthy .null = false ∧ jsTruthy (.bool false) = false ∧
    (putTask s id b).1.body =
      .task ⟨id, b.description.getD current.description, jsTruthy b.completed⟩ ∧
    ∀ r ∈ (putTask s id b).2.rows, r.id = id →
      r.completed = if jsTruthy b.completed then 1 else 0 := by
  have key := putTask_found s id b current rest hcur (by simp [hv])
  rw [key]
  refine ⟨rfl, rfl, rfl, rfl, rfl, rfl, ?_, ?_⟩
  · simp [mergeCompleted_of_ne_undef current b.completed hv]
    cases h : jsTruthy b.completed <;> simp [h]
  · intro r hr hrid
    rcases List.mem_map.1 hr with ⟨r0, _, rfl⟩
    by_cases h0 : r0.id == id
    · simp [h0, mergeCompleted_of_ne_undef current b.completed hv]
    · simp [h0] at hrid
      exact absurd hrid (by simpa using h0)

/-- Witness for C10: PUTting `{completed: "false"}` on a one-row store
stores and returns `completed = true`. -/
theorem c10_completed_truthiness_witness :
    jsTruthy (.str "false") = true ∧ jsTruthy (.num 2) = true ∧
    jsTruthy (.num 0) = false ∧ jsTruthy (.str "") = false ∧
    jsTruthy .null = false ∧ jsTruthy (.bool false) = false ∧
    (putTask ⟨[⟨1, "a", 0, 0⟩], 2, 1⟩ 1 ⟨none, .str "false"⟩).1.body =
      .task ⟨1, "a", jsTruthy (.str "false")⟩ ∧
    ∀ r ∈ (putTask ⟨[⟨1, "a", 0, 0⟩], 2, 1⟩ 1 ⟨none, .str "false"⟩).2.rows,
      r.id = 1 → r.completed = if jsTruthy (.str "false") then 1 else 0 := by
  exact c10_completed_truthiness ⟨[⟨1, "a", 0, 0⟩], 2, 1⟩ 1 ⟨none, .str "false"⟩
    ⟨1, "a", 0, 0⟩ [] (by decide) (by decide)

/-- Counterexample for C3: on the empty store (so id 1 identifies no
task), a PUT /api/tasks/1 whose body supplies neither field is answered
400, not 404 — the neither-field check runs before the id lookup. -/
theorem c3_counterexample :
    (⟨[], 1, 0⟩ : Store).rows.filter (fun r => r.id == 1) = [] ∧
    (putTask ⟨[], 1, 0⟩ 1 ⟨none, .undef⟩).1.status = 400 ∧
    ¬(putTask ⟨[], 1, 0⟩ 1 ⟨none, .undef⟩).1.status = 404 := by
  decide

/-- C3 (amended): a PUT supplying neither field is answered 400 on every
store and every id — existing or not, since nothing constrains `s` and
`id` — and leaves the store unchanged; a PUT supplying at least one field
on an id that identifies no stored task (`s'`, `id'`) is answered 404 and
leaves the store unchanged. -/
theorem c3_put_errors (s : Store) (id : Nat) (s' : Store) (id' : Nat) (b : PutBody)
    (hmiss : s'.rows.filter (fun r => r.id == id') = [])
    (hb : ¬(b.description = none ∧ b.completed = JsValue.undef)) :
    (putTask s id ⟨none, .undef⟩).1.status = 400 ∧
    (putTask s id ⟨none, .undef⟩).2 = s ∧
    (putTask s' id' b).1.status = 404 ∧
    (putTask s' id' b).2 = s' := by
  refine ⟨by simp [putTask], by simp [putTask], ?_, ?_⟩
  · unfold putTask
    rw [if_neg hb, hmiss]
  · unfold putTask
    rw [if_neg hb, hmiss]

/-- Witness for C3 (amended): the neither-field 400 on a store that does
contain the targeted id 1, and the 404 on the empty store with the body
`{description: "x"}`. -/
theorem c3_put_errors_witness :
    (putTask ⟨[⟨1, "a", 0, 0⟩], 2, 1⟩ 1 ⟨none, .undef⟩).1.status = 400 ∧
    (putTask ⟨[⟨1, "a", 0, 0⟩], 2, 1⟩ 1 ⟨none, .undef⟩).2 = ⟨[⟨1, "a", 0, 0⟩], 2, 1⟩ ∧
    (putTask ⟨[], 1, 0⟩ 1 ⟨some "x", .undef⟩).1.status = 404 ∧
    (putTask ⟨[], 1, 0⟩ 1 ⟨some "x", .undef⟩).2 = ⟨[], 1, 0⟩ := by
  exact c3_put_errors ⟨[⟨1, "a", 0, 0⟩], 2, 1⟩ 1 ⟨[], 1, 0⟩ 1 ⟨some "x", .undef⟩
    (by decide) (by decide)

/-- Counterexample for C7: create "a" (id 1), then PUT /api/tasks/1 with
`{description: ""}` — the update handler never checks for an empty
description, so the request succeeds (200) and the store now holds a task
whose description is the empty string. -/
theorem c7_counterexample :
    (createTask ⟨[], 1, 0⟩ (some "a")).2 = ⟨[⟨1, "a", 0, 0⟩], 2, 1⟩ ∧
    (putTask ⟨[⟨1, "a", 0, 0⟩], 2, 1⟩ 1 ⟨some "", .undef⟩).1.status = 200 ∧
    (putTask ⟨[⟨1, "a", 0, 0⟩], 2, 1⟩ 1 ⟨some "", .undef⟩).2.rows = [⟨1, "", 0, 0⟩] := by
  decide

/-- C7 (amended): creation rejects an empty description, and creation and
deletion preserve the all-descriptions-non-empty invariant; update
preserves it only when the supplied description is not the empty string
(a PUT supplying `description = ""` breaks it, see the counterexample). -/
theorem c7_description_invariant (s : Store)
    (hs : ∀ r ∈ s.rows, r.description ≠ "")
    (d : Option String) (id : Nat) (b : PutBody)
    (hb : b.description ≠ some "") :
    (∀ r ∈ (createTask s d).2.rows, r.description ≠ "") ∧
    (∀ r ∈ (deleteTask s id).2.rows, r.description ≠ "") ∧
    (∀ r ∈ (putTask s id b).2.rows, r.description ≠ "") := by
  refine ⟨?_, ?_, ?_⟩
  · rcases d with _ | d'
    · exact hs
    · by_cases hd : d' = ""
      · simpa [createTask, hd] using hs
      · intro r hr
        simp [createTask, hd] at hr
        rcases hr with hr | hr
        · exact hs r hr
        · rw [hr]
          exact hd
  · simp only [deleteTask]
    split
    · exact hs
    · exact fun r hr => hs r (List.mem_filter.1 hr).1
  · simp only [putTask]
    split
    · exact hs
    · split
      · exact hs
      · next cur rest hfil =>
        intro r hr
        rcases List.mem_map.1 hr with ⟨r0, hr0, rfl⟩
        by_cases h0 : r0.id == id
        · simp only [h0, if_true]
          rcases hbd : b.description with _ | d'
          · have hcurmem : cur ∈ s.rows.filter (fun r => r.id == id) := by
              rw [hfil]; exact List.mem_cons_self _ _
            simpa [hbd] using hs cur (List.mem_filter.1 hcurmem).1
          · intro heq
            simp [hbd] at heq
            exact hb (by rw [hbd, heq])
        · simp only [h0]
          simpa using hs r0 hr0

/-- Witness for C7 (amended) on a one-row store. -/
theorem c7_description_invariant_witness :
    (∀ r ∈ (createTask ⟨[⟨1, "a", 0, 0⟩], 2, 1⟩ (some "b")).2.rows, r.description ≠ "") ∧
    (∀ r ∈ (deleteTask ⟨[⟨1, "a", 0, 0⟩], 2, 1⟩ 1).2.rows, r.description ≠ "") ∧
    (∀ r ∈ (putTask ⟨[⟨1, "a", 0, 0⟩], 2, 1⟩ 1 ⟨some "c", .bool true⟩).2.rows,
      r.description ≠ "") := by
  exact c7_description_invariant ⟨[⟨1, "a", 0, 0⟩], 2, 1⟩ (by decide)
    (some "b") 1 ⟨some "c", .bool true⟩ (by decide)

/-- C8: for each of the five UI actions (load, add, toggle-complete,
save-edit, delete), a failed API call leaves the in-memory task list
exactly as it was and stores that action's human-readable error message.
Load, toggle and delete hold in every state `s`; add and save-edit are
stated on their own states `sa` and `se`, constrained only by the guard
under which that action issues a request at all (a non-empty trimmed
draft — with an empty draft the handler returns before calling fetch). -/
theorem c8_ui_failure_preserves_state (s sa se : UI.UIState)
    (hadd : UI.jsTrim sa.newTaskDescription ≠ "")
    (hsave : UI.jsTrim se.editingTaskDescription ≠ "")
    (task : UI.UITask) (taskId : Nat) :
    ((UI.fetchTasks s .fail).tasks = s.tasks ∧
      (UI.fetchTasks s .fail).error = some "Não foi possível carregar as tarefas.") ∧
    ((UI.addTask sa .fail).tasks = sa.tasks ∧
      (UI.addTask sa .fail).error = some "Não foi possível adicionar a tarefa.") ∧
    ((UI.toggleTaskCompleted s task .fail).tasks = s.tasks ∧
      (UI.toggleTaskCompleted s task .fail).error = some "Não foi possível atualizar a tarefa.") ∧
    ((UI.saveEditedTask se .fail).tasks = se.tasks ∧
      (UI.saveEditedTask se .fail).error = some "Não foi possível salvar a tarefa editada.") ∧
    ((UI.deleteTaskUI s taskId .fail).tasks = s.tasks ∧
      (UI.deleteTaskUI s taskId .fail).error = some "Não foi possível deletar a tarefa.") := by
  simp [UI.fetchTasks, UI.addTask, UI.toggleTaskCompleted, UI.saveEditedTask,
    UI.deleteTaskUI, hadd, hsave]

/-- Witness for C8: load, toggle and delete on the mount-time state (empty
drafts, `isLoading` true); add and save-edit on states whose respective
draft is non-empty. -/
theorem c8_ui_failure_preserves_state_witness :
    ((UI.fetchTasks ⟨[], "", none, "", true, none⟩ .fail).tasks = [] ∧
      (UI.fetchTasks ⟨[], "", none, "", true, none⟩ .fail).error =
        some "Não foi possível carregar as tarefas.") ∧
    ((UI.addTask ⟨[], "x", none, "", false, none⟩ .fail).tasks = [] ∧
      (UI.addTask ⟨[], "x", none, "", false, none⟩ .fail).error =
        some "Não foi possível adicionar a tarefa.") ∧
    ((UI.toggleTaskCompleted ⟨[], "", none, "", true, none⟩ ⟨1, "a", false⟩ .fail).tasks = [] ∧
      (UI.toggleTaskCompleted ⟨[], "", none, "", true, none⟩ ⟨1, "a", false⟩ .fail).error =
        some "Não foi possível atualizar a tarefa.") ∧
    ((UI.saveEditedTask ⟨[], "", none, "y", false, none⟩ .fail).tasks = [] ∧
      (UI.saveEditedTask ⟨[], "", none, "y", false, none⟩ .fail).error =
        some "Não foi possível salvar a tarefa editada.") ∧
    ((UI.deleteTaskUI ⟨[], "", none, "", true, none⟩ 1 .fail).tasks = [] ∧
      (UI.deleteTaskUI ⟨[], "", none, "", true, none⟩ 1 .fail).error =
        some "Não foi possível deletar a tarefa.") := by
  exact c8_ui_failure_preserves_state ⟨[], "", none, "", true, none⟩
    ⟨[], "x", none, "", false, none⟩ ⟨[], "", none, "y", false, none⟩
    (by decide) (by decide) ⟨1, "a", false⟩ 1

/-- Counterexample for C9: in a loading state the completion checkbox —
which initiates a PUT mutation via its change handler — is not disabled,
because its markup carries no `disabled` attribute. -/
theorem c9_counterexample :
    (⟨[⟨1, "a", false⟩], "", none, "", true, none⟩ : UI.UIState).isLoading = true ∧
    UI.completedCheckboxDisabled ⟨[⟨1, "a", false⟩], "", none, "", true, none⟩ = false := by
  decide

/-- C9 (amended): while a request is in flight every mutation button (add,
save, cancel, edit, delete) is disabled, but the completion checkbox is
not, so a toggle mutation can still be initiated. -/
theorem c9_buttons_disabled (s : UI.UIState) (h : s.isLoading = true) :
    UI.addButtonDisabled s = true ∧
    UI.saveEditButtonDisabled s = true ∧
    UI.cancelEditButtonDisabled s = true ∧
    UI.editButtonDisabled s = true ∧
    UI.deleteButtonDisabled s = true ∧
    UI.completedCheckboxDisabled s = false := by
  simp [UI.addButtonDisabled, UI.saveEditButtonDisabled, UI.cancelEditButtonDisabled,
    UI.editButtonDisabled, UI.deleteButtonDisabled, UI.completedCheckboxDisabled, h]

/-- Witness for C9 (amended) on a concrete loading state. -/
theorem c9_buttons_disabled_witness :
    UI.addButtonDisabled ⟨[], "", none, "", true, none⟩ = true ∧
    UI.saveEditButtonDisabled ⟨[], "", none, "", true, none⟩ = true ∧
    UI.cancelEditButtonDisabled ⟨[], "", none, "", true, none⟩ = true ∧
    UI.editButtonDisabled ⟨[], "", none, "", true, none⟩ = true ∧
    UI.deleteButtonDisabled ⟨[], "", none, "", true, none⟩ = true ∧
    UI.completedCheckboxDisabled ⟨[], "", none, "", true, none⟩ = false := by
  exact c9_buttons_disabled ⟨[], "", none, "", true, none⟩ (by decide)

/-- Having `affectedRows = 0` on the DELETE statement means no stored row has
the id. -/
lemma delete_affected_zero_iff (l : List Row) (id : Nat) :
    l.length - (l.filter (fun r => r.id != id)).length = 0 ↔ ∀ r ∈ l, r.id ≠ id := by
  have hsub : (l.filter (fun r => r.id != id)).Sublist l := List.filter_sublist l
  constructor
  · intro h r hr hrid
    have hlen : (l.filter (fun r => r.id != id)).length = l.length :=
      le_antisymm hsub.length_le (Nat.le_of_sub_eq_zero h)
    have hfeq : l.filter (fun r => r.id != id) = l := hsub.eq_of_length hlen
    have := (List.filter_eq_self.1 hfeq) r hr
    simp [hrid] at this
  · intro h
    have hfeq : l.filter (fun r => r.id != id) = l :=
      List.filter_eq_self.2 (fun r hr => by simpa using h r hr)
    rw [hfeq]
    omega

/-- An id strictly below the AUTO_INCREMENT counter and absent from the
table stays absent (and below the counter) across any single request. -/
lemma fresh_applyOp (id : Nat) (s : Store) (o : Op)
    (h1 : id < s.nextId) (h2 : ∀ r ∈ s.rows, r.id ≠ id) :
    id < (applyOp s o).nextId ∧ ∀ r ∈ (applyOp s o).rows, r.id ≠ id := by
  cases o with
  | create d =>
    rcases d with _ | d'
    · exact ⟨h1, h2⟩
    · by_cases hd : d' = ""
      · simpa [applyOp, createTask, hd] using ⟨h1, h2⟩
      · constructor
        · simp [applyOp, createTask, hd]
          omega
        · intro r hr
          simp [applyOp, createTask, hd] at hr
          rcases hr with hr | hr
          · exact h2 r hr
          · rw [hr]
            simp
            omega
  | put pid b =>
    simp only [applyOp, putTask]
    split
    · exact ⟨h1, h2⟩
    · split
      · exact ⟨h1, h2⟩
      · refine ⟨h1, ?_⟩
        intro r hr
        rcases List.mem_map.1 hr with ⟨r0, hr0, rfl⟩
        by_cases h0 : r0.id == pid
        · simpa [h0] using h2 r0 hr0
        · simpa [h0] using h2 r0 hr0
  | delete did =>
    simp only [applyOp, deleteTask]
    split
    · exact ⟨h1, h2⟩
    · exact ⟨h1, fun r hr => h2 r (List.mem_filter.1 hr).1⟩

/-- Lemma `fresh_applyOp` extended to any sequence of requests. -/
lemma fresh_applyOps (id : Nat) (s : Store) (ops : List Op)
    (h1 : id < s.nextId) (h2 : ∀ r ∈ s.rows, r.id ≠ id) :
    id < (applyOps s ops).nextId ∧ ∀ r ∈ (applyOps s ops).rows, r.id ≠ id := by
  induction ops generalizing s with
  | nil => exact ⟨h1, h2⟩
  | cons o rest ih =>
    have h := fresh_applyOp id s o h1 h2
    simpa [applyOps, List.foldl] using ih (applyOp s o) h.1 h.2

/-- C4: under the AUTO_INCREMENT invariant (every stored id is below the
counter), DELETE on an id no stored task has is answered 404 and leaves
the store unchanged; DELETE on a stored id is answered 204 with an empty
body, and after any sequence of further requests the listing GET returns
never contains that id again. -/
theorem c4_delete_behavior (s : Store) (id : Nat)
    (hinv : ∀ r ∈ s.rows, r.id < s.nextId) :
    ((∀ r ∈ s.rows, r.id ≠ id) →
      (deleteTask s id).1.status = 404 ∧ (deleteTask s id).2 = s) ∧
    ((∃ r ∈ s.rows, r.id = id) →
      (deleteTask s id).1 = ⟨204, .empty⟩ ∧
      ∀ ops : List Op, ∀ r ∈ selectAllOrdered (applyOps (deleteTask s id).2 ops),
        r.id ≠ id) := by
  constructor
  · intro hnone
    have haff : s.rows.length - (s.rows.filter (fun r => r.id != id)).length = 0 :=
      (delete_affected_zero_iff s.rows id).2 hnone
    simp [deleteTask, haff]
  · rintro ⟨r0, hr0, hr0id⟩
    have haff : ¬(s.rows.length - (s.rows.filter (fun r => r.id != id)).length = 0) :=
      fun h => (delete_affected_zero_iff s.rows id).1 h r0 hr0 hr0id
    constructor
    · simp [deleteTask, haff]
    · intro ops r hr
      have hid_lt : id < s.nextId := hr0id ▸ hinv r0 hr0
      have hstart1 : id < (deleteTask s id).2.nextId := by
        simpa [deleteTask, haff] using hid_lt
      have hstart2 : ∀ r' ∈ (deleteTask s id).2.rows, r'.id ≠ id := by
        intro r' hr'
        simp only [deleteTask, if_neg haff] at hr'
        simpa using (List.mem_filter.1 hr').2
      have hfin := fresh_applyOps id (deleteTask s id).2 ops hstart1 hstart2
      have hmem : r ∈ (applyOps (deleteTask s id).2 ops).rows := by
        simpa [selectAllOrdered, List.mem_mergeSort] using hr
      exact hfin.2 r hmem

/-- Witness for C4 on a one-row store: deleting the absent id 2 is 404
and changes nothing; deleting the stored id 1 is 204 with no content. -/
theorem c4_delete_behavior_witness :
    (deleteTask ⟨[⟨1, "a", 0, 0⟩], 2, 1⟩ 2).1.status = 404 ∧
    (deleteTask ⟨[⟨1, "a", 0, 0⟩], 2, 1⟩ 2).2 = ⟨[⟨1, "a", 0, 0⟩], 2, 1⟩ ∧
    (deleteTask ⟨[⟨1, "a", 0, 0⟩], 2, 1⟩ 1).1 = ⟨204, .empty⟩ := by
  refine ⟨?_, ?_, ?_⟩
  · exact ((c4_delete_behavior ⟨[⟨1, "a", 0, 0⟩], 2, 1⟩ 2 (by decide)).1 (by decide)).1
  · exact ((c4_delete_behavior ⟨[⟨1, "a", 0, 0⟩], 2, 1⟩ 2 (by decide)).1 (by decide)).2
  · exact ((c4_delete_behavior ⟨[⟨1, "a", 0, 0⟩], 2, 1⟩ 1 (by decide)).2 (by decide)).1

end Todo
